import Mathlib

/-!
Shallow embedding of the vehicle-rental booking service
(julianbrochero/back-vehiculos): data model from `models.py` /
`schemas.py`, store operations from `crud.py`, and the reservation
endpoints from `main.py`.  Timestamps are modelled as integers
(`datetime` values compare linearly), ids as naturals, and the SQL
session as an explicit record of tables plus autoincrement counters.
-/

/-- `models.User` (table `users`): id, nombre, email, hashed password, rol. -/
structure User where
  id : Nat
  nombre : String
  email : String
  hashed_password : String
  rol : String
deriving DecidableEq, Repr

/-- `models.Vehiculo` (table `vehiculos`). -/
structure Vehiculo where
  id : Nat
  marca : String
  modelo : String
  anio : Int
  matricula : String
  capacidad : Int
  categoria_id : Nat
deriving DecidableEq, Repr

/-- `models.Categoria` (table `categorias`). -/
structure Categoria where
  id : Nat
  nombre : String
  descripcion : String
deriving DecidableEq, Repr

/-- `models.Reserva` (table `reservas`): vehicle and user references plus the
closed occupancy interval `[fecha_reserva, fecha_devolucion]`. -/
structure Reserva where
  id : Nat
  vehiculo_id : Nat
  usuario_id : Nat
  fecha_reserva : Int
  fecha_devolucion : Int
deriving DecidableEq, Repr

/-- `schemas.ReservaBase`: the request body of a reservation. -/
structure ReservaBase where
  vehiculo_id : Nat
  fecha_reserva : Int
  fecha_devolucion : Int
deriving DecidableEq, Repr

/-- `schemas.VehiculoBase`: the request body of a vehicle. -/
structure VehiculoBase where
  marca : String
  modelo : String
  anio : Int
  matricula : String
  capacidad : Int
  categoria_id : Nat
deriving DecidableEq, Repr

/-- `schemas.CategoriaBase`. -/
structure CategoriaBase where
  nombre : String
  descripcion : String
deriving DecidableEq, Repr

/-- The persistent store: the tables created by `models.Base.metadata.create_all`
plus the autoincrement counters of the integer primary keys. -/
structure DB where
  users : List User
  vehiculos : List Vehiculo
  categorias : List Categoria
  reservas : List Reserva
  nextUserId : Nat
  nextVehiculoId : Nat
  nextCategoriaId : Nat
  nextReservaId : Nat
deriving DecidableEq, Repr

/-- The filter both reservation queries apply to a stored `Reserva` against a
candidate range: `Reserva.fecha_reserva <= fecha_fin AND
Reserva.fecha_devolucion >= fecha_inicio` (crud.py lines 43-44 and 67-70). -/
def reservaOverlapsBool (r : Reserva) (fecha_inicio fecha_fin : Int) : Bool :=
  decide (r.fecha_reserva ≤ fecha_fin) && decide (r.fecha_devolucion ≥ fecha_inicio)

/-- `crud.get_vehiculos_disponibles`: the subquery collects the `vehiculo_id`
of every reservation overlapping the range, and the outer query keeps the
vehicles whose id is not in that set (anti-join). -/
def get_vehiculos_disponibles (db : DB) (fecha_inicio fecha_fin : Int) : List Vehiculo :=
  let subquery :=
    (db.reservas.filter (fun r => reservaOverlapsBool r fecha_inicio fecha_fin)).map
      (fun r => r.vehiculo_id)
  db.vehiculos.filter (fun v => !(subquery.contains v.id))

/-- The availability check of `crud.create_reserva` (crud.py lines 66-72):
`db.query(Vehiculo).filter(Vehiculo.id == reserva.vehiculo_id,
~Vehiculo.reservas.any(overlap)).first()` — the first vehicle with the
requested id none of whose reservations overlaps the candidate interval. -/
def vehiculo_disponible_query (db : DB) (reserva : ReservaBase) : Option Vehiculo :=
  db.vehiculos.find? (fun v =>
    v.id == reserva.vehiculo_id &&
      !(db.reservas.any (fun r =>
        r.vehiculo_id == v.id &&
          reservaOverlapsBool r reserva.fecha_reserva reserva.fecha_devolucion)))

/-- The message of the `ValueError` raised by `crud.create_reserva`;
`main.create_reserva` maps it to an HTTP 400 (the availability-conflict
rejection). -/
def availabilityConflictMsg : String :=
  "El vehiculo no esta disponible en las fechas seleccionadas"

/-- The insert half of `crud.create_reserva` (crud.py lines 77-81):
`Reserva(**reserva.dict(), usuario_id=usuario_id)` added and committed,
with the autoincrement primary key. -/
def insert_reserva (db : DB) (reserva : ReservaBase) (usuario_id : Nat) : DB × Reserva :=
  let db_reserva : Reserva :=
    { id := db.nextReservaId
      vehiculo_id := reserva.vehiculo_id
      usuario_id := usuario_id
      fecha_reserva := reserva.fecha_reserva
      fecha_devolucion := reserva.fecha_devolucion }
  ({ db with
      reservas := db.reservas ++ [db_reserva]
      nextReservaId := db.nextReservaId + 1 },
    db_reserva)

/-- `crud.create_reserva` (crud.py lines 64-81): availability check, then
`ValueError` if no available vehicle was found, otherwise insert-and-return.
The check and the insert are two separate steps against the store, exactly
as in the source. -/
def create_reserva (db : DB) (reserva : ReservaBase) (usuario_id : Nat) :
    Except String (DB × Reserva) :=
  match vehiculo_disponible_query db reserva with
  | none => Except.error availabilityConflictMsg
  | some _ => Except.ok (insert_reserva db reserva usuario_id)

/-- `crud.get_reservas_usuario`. -/
def get_reservas_usuario (db : DB) (usuario_id : Nat) : List Reserva :=
  db.reservas.filter (fun r => r.usuario_id == usuario_id)

/-- `crud.get_reservas_activas_usuario`; `ahora` stands for the
`datetime.now()` the source reads. -/
def get_reservas_activas_usuario (db : DB) (usuario_id : Nat) (ahora : Int) : List Reserva :=
  db.reservas.filter (fun r =>
    r.usuario_id == usuario_id &&
      decide (r.fecha_reserva ≤ ahora) && decide (r.fecha_devolucion ≥ ahora))

/-- Modelled from the spec: `crud.get_reserva` is called by `main.read_reserva`
and `main.delete_reserva` but is missing from the sources; per §6
(`findReservation` shape, lookup by id) it returns the reservation with the
given id, `None` when absent. -/
def get_reserva (db : DB) (reserva_id : Nat) : Option Reserva :=
  db.reservas.find? (fun r => r.id == reserva_id)

/-- Modelled from the spec: `crud.delete_reserva` is called by
`main.delete_reserva` but is missing from the sources; per §4.4 ("On success:
deletes the record", hard delete) it removes the record with the given id. -/
def crud_delete_reserva (db : DB) (reserva_id : Nat) : DB :=
  { db with reservas := db.reservas.filter (fun r => !(r.id == reserva_id)) }

/-- Outcome of the `DELETE /reservas/{id}` endpoint. -/
inductive CancelOutcome where
  | notFound
  | forbidden
  | tooLate
  | success
deriving DecidableEq, Repr

/-- `main.delete_reserva` (main.py lines 303-321): lookup (404), then the
owner-or-admin check (403), then the strict `datetime.now() >
db_reserva.fecha_reserva` window check (400), then the hard delete.
`now` stands for `datetime.now()`. -/
def delete_reserva (db : DB) (reserva_id : Nat) (current_user : User) (now : Int) :
    CancelOutcome × DB :=
  match get_reserva db reserva_id with
  | none => (CancelOutcome.notFound, db)
  | some db_reserva =>
    if db_reserva.usuario_id ≠ current_user.id ∧ current_user.rol ≠ "Administrador" then
      (CancelOutcome.forbidden, db)
    else if now > db_reserva.fecha_reserva then
      (CancelOutcome.tooLate, db)
    else
      (CancelOutcome.success, crud_delete_reserva db reserva_id)

/-- `crud.create_user` (rol fixed to "Cliente"); the password hash comes from
the external `auth.get_password_hash` collaborator and is received opaque. -/
def create_user (db : DB) (nombre email hashed_password : String) : DB :=
  { db with
      users := db.users ++
        [{ id := db.nextUserId, nombre := nombre, email := email,
           hashed_password := hashed_password, rol := "Cliente" }]
      nextUserId := db.nextUserId + 1 }

/-- `crud.create_vehiculo`. -/
def create_vehiculo (db : DB) (v : VehiculoBase) : DB :=
  { db with
      vehiculos := db.vehiculos ++
        [{ id := db.nextVehiculoId, marca := v.marca, modelo := v.modelo,
           anio := v.anio, matricula := v.matricula, capacidad := v.capacidad,
           categoria_id := v.categoria_id }]
      nextVehiculoId := db.nextVehiculoId + 1 }

/-- `crud.create_categoria`. -/
def create_categoria (db : DB) (c : CategoriaBase) : DB :=
  { db with
      categorias := db.categorias ++
        [{ id := db.nextCategoriaId, nombre := c.nombre, descripcion := c.descripcion }]
      nextCategoriaId := db.nextCategoriaId + 1 }

/-- The core operations that can touch the store, as exposed by the API layer
in `main.py`.  Read-only queries do not change the state and are omitted. -/
inductive Op where
  | createUserOp (nombre email hashed_password : String)
  | createVehiculoOp (v : VehiculoBase)
  | createCategoriaOp (c : CategoriaBase)
  | createReservaOp (reserva : ReservaBase) (usuario_id : Nat)
  | deleteReservaOp (reserva_id : Nat) (current_user : User) (now : Int)
deriving DecidableEq, Repr

/-- The store state an operation leaves behind (an aborted
`create_reserva` raises before committing, leaving the store unchanged). -/
def applyOp (db : DB) : Op → DB
  | Op.createUserOp n e h => create_user db n e h
  | Op.createVehiculoOp v => create_vehiculo db v
  | Op.createCategoriaOp c => create_categoria db c
  | Op.createReservaOp reserva usuario_id =>
      match create_reserva db reserva usuario_id with
      | Except.error _ => db
      | Except.ok (db2, _) => db2
  | Op.deleteReservaOp reserva_id u now => (delete_reserva db reserva_id u now).2

/-- The store right after `models.Base.metadata.create_all`: empty tables. -/
def emptyDB : DB :=
  { users := [], vehiculos := [], categorias := [], reservas := [],
    nextUserId := 0, nextVehiculoId := 0, nextCategoriaId := 0, nextReservaId := 0 }

/-- Sequential execution of a list of operations. -/
def applyOps (db : DB) (ops : List Op) : DB := ops.foldl applyOp db

/-- Two stored reservations are compatible when, if they are for the same
vehicle, their closed intervals do not overlap (the overlap rule is the one
`crud.py` queries with). -/
def reservasCompatible (r1 r2 : Reserva) : Prop :=
  r1.vehiculo_id = r2.vehiculo_id →
    ¬(r1.fecha_reserva ≤ r2.fecha_devolucion ∧ r1.fecha_devolucion ≥ r2.fecha_reserva)

instance : DecidableRel reservasCompatible := fun r1 r2 => by
  unfold reservasCompatible; infer_instance

/-- The no-double-booking invariant: for each vehicle, no two stored
reservations have overlapping closed intervals. -/
def no_double_booking (db : DB) : Prop :=
  db.reservas.Pairwise reservasCompatible

instance (db : DB) : Decidable (no_double_booking db) := by
  unfold no_double_booking; infer_instance

/-- Modelled from the spec (§4.1): "given two closed intervals A=[a1,a2],
B=[b1,b2], returns true iff they intersect, using the rule
`a1 <= b2 AND a2 >= b1`". -/
def overlaps_spec (a1 a2 b1 b2 : Int) : Bool :=
  decide (a1 ≤ b2) && decide (a2 ≥ b1)

/-- Modelled from the spec (§4.2): `isAvailable` returns false iff some
reservation of the vehicle overlaps the candidate interval. -/
def isAvailable_spec (db : DB) (vehicleId : Nat) (ini fin : Int) : Bool :=
  !(db.reservas.any (fun r => r.vehiculo_id == vehicleId && reservaOverlapsBool r ini fin))

/-- Modelled from the spec (§4.2): the per-vehicle definition of
`listAvailableVehicles` — filter the fleet by the availability check. -/
def listAvailableVehicles_spec (db : DB) (ini fin : Int) : List Vehiculo :=
  db.vehiculos.filter (fun v => isAvailable_spec db v.id ini fin)

/-- A concrete client account, used by the concrete scenarios below. -/
def clienteAna : User :=
  { id := 7, nombre := "Ana", email := "ana@example.com",
    hashed_password := "x", rol := "Cliente" }

/-- A concrete administrator account. -/
def adminRoot : User :=
  { id := 1, nombre := "Root", email := "root@example.com",
    hashed_password := "y", rol := "Administrador" }

/-- Concrete vehicle V1 of the spec §8 scenario. -/
def vehiculoV1 : Vehiculo :=
  { id := 1, marca := "Toyota", modelo := "Corolla", anio := 2020,
    matricula := "AAA111", capacidad := 5, categoria_id := 1 }

/-- Concrete vehicle V2 of the spec §8 scenario (no bookings). -/
def vehiculoV2 : Vehiculo :=
  { id := 2, marca := "Ford", modelo := "Fiesta", anio := 2021,
    matricula := "BBB222", capacidad := 5, categoria_id := 1 }

/-- V1's booking `[10, 12]` (days stand for the dates of the §8 scenario). -/
def reservaV1 : Reserva :=
  { id := 1, vehiculo_id := 1, usuario_id := 7,
    fecha_reserva := 10, fecha_devolucion := 12 }

/-- The §8 scenario store: V1 booked `[10, 12]`, V2 free. -/
def dbEscenario : DB :=
  { users := [adminRoot, clienteAna], vehiculos := [vehiculoV1, vehiculoV2],
    categorias := [], reservas := [reservaV1],
    nextUserId := 8, nextVehiculoId := 3, nextCategoriaId := 1, nextReservaId := 2 }

/-- Helper for C1: a committed `create_reserva` preserves the
no-double-booking invariant — the availability query guarantees the new
record overlaps no stored reservation of its vehicle. -/
theorem create_reserva_op_preserves (db : DB) (reserva : ReservaBase) (usuario_id : Nat)
    (hdb : no_double_booking db) :
    no_double_booking (applyOp db (Op.createReservaOp reserva usuario_id)) := by
  simp only [applyOp]
  cases h : create_reserva db reserva usuario_id with
  | error e => exact hdb
  | ok p =>
    obtain ⟨db2, rnew⟩ := p
    unfold create_reserva at h
    cases hq : vehiculo_disponible_query db reserva with
    | none => rw [hq] at h; exact absurd h (by simp)
    | some v =>
      rw [hq] at h
      simp only [Except.ok.injEq] at h
      have hp := List.find?_some hq
      simp only [Bool.and_eq_true, Bool.not_eq_true', beq_iff_eq] at hp
      obtain ⟨hid, hany⟩ := hp
      rw [List.any_eq_false] at hany
      have hdb2 : db2 = (insert_reserva db reserva usuario_id).1 := by
        rw [h]
      simp only
      rw [hdb2]
      unfold no_double_booking insert_reserva at *
      simp only
      rw [List.pairwise_append]
      refine ⟨hdb, List.pairwise_singleton _ _, ?_⟩
      intro a ha b hb
      simp only [List.mem_singleton] at hb
      subst hb
      intro hvid
      simp only at hvid
      have := hany a ha
      simp only [Bool.not_eq_true, Bool.and_eq_false_iff, beq_eq_false_iff_ne, ne_eq] at this
      rcases this with hne | hov
      · exact absurd (hvid.trans hid.symm) hne
      · simp only [reservaOverlapsBool, Bool.and_eq_false_iff, decide_eq_false_iff_not] at hov
        simp only
        omega

/-- Helper for C1: cancellation only removes records, so it preserves the
no-double-booking invariant. -/
theorem delete_reserva_op_preserves (db : DB) (reserva_id : Nat) (u : User) (now : Int)
    (hdb : no_double_booking db) :
    no_double_booking (applyOp db (Op.deleteReservaOp reserva_id u now)) := by
  simp only [applyOp, delete_reserva]
  cases hq : get_reserva db reserva_id with
  | none => exact hdb
  | some r =>
    dsimp only
    by_cases hf : r.usuario_id ≠ u.id ∧ u.rol ≠ "Administrador"
    · rw [if_pos hf]; exact hdb
    · rw [if_neg hf]
      by_cases ht : now > r.fecha_reserva
      · rw [if_pos ht]; exact hdb
      · rw [if_neg ht]
        simp only [no_double_booking, crud_delete_reserva]
        exact List.Pairwise.sublist (List.filter_sublist _) hdb

/-- C1: every store state satisfying the no-double-booking invariant keeps
satisfying it after any sequential core operation — in particular
`create_reserva` inserts only when its interval overlaps no stored
reservation of the target vehicle, and no other operation introduces or
mutates reservation intervals — hence every store state reachable from the
empty store by a sequence of core operations satisfies the invariant. -/
theorem create_reserva_preserves_no_double_booking :
    (∀ (db : DB) (op : Op), no_double_booking db → no_double_booking (applyOp db op))
    ∧ ∀ ops : List Op, no_double_booking (applyOps emptyDB ops) := by
  have hstep : ∀ (db : DB) (op : Op), no_double_booking db → no_double_booking (applyOp db op) := by
    intro db op hdb
    cases op with
    | createUserOp n e h => exact hdb
    | createVehiculoOp v => exact hdb
    | createCategoriaOp c => exact hdb
    | createReservaOp reserva usuario_id =>
        exact create_reserva_op_preserves db reserva usuario_id hdb
    | deleteReservaOp rid u now => exact delete_reserva_op_preserves db rid u now hdb
  refine ⟨hstep, ?_⟩
  have hgen : ∀ (ops : List Op) (db : DB),
      no_double_booking db → no_double_booking (applyOps db ops) := by
    intro ops
    induction ops with
    | nil => intro db hdb; exact hdb
    | cons op rest ih =>
        intro db hdb
        exact ih (applyOp db op) (hstep db op hdb)
  intro ops
  exact hgen ops emptyDB List.Pairwise.nil

/-- Witness for C1 at the §8 scenario store and a concrete commit. -/
theorem create_reserva_preserves_no_double_booking_witness :
    no_double_booking
      (applyOp dbEscenario
        (Op.createReservaOp { vehiculo_id := 1, fecha_reserva := 13, fecha_devolucion := 14 } 7)) :=
  create_reserva_preserves_no_double_booking.1 dbEscenario _ (by decide)

/-- C2: the availability decision is exactly the spec's inclusive rule
`a1 <= b2 AND a2 >= b1`: the per-reservation test both query sites apply
equals `overlaps_spec`; intervals touching at one endpoint overlap; and a
candidate whose start equals a stored reservation's end (or end equals its
start) is judged unavailable both by the commit check of `create_reserva`
and by the fleet-wide `get_vehiculos_disponibles`. -/
theorem overlap_rule_inclusive_boundaries :
    (∀ (r : Reserva) (b1 b2 : Int),
        reservaOverlapsBool r b1 b2 = overlaps_spec r.fecha_reserva r.fecha_devolucion b1 b2)
    ∧ (∀ t0 t1 t2 : Int, t0 ≤ t1 → t1 ≤ t2 → overlaps_spec t0 t1 t1 t2 = true)
    ∧ (∀ (db : DB) (reserva : ReservaBase) (usuario_id : Nat) (r : Reserva),
        r ∈ db.reservas → r.vehiculo_id = reserva.vehiculo_id →
        r.fecha_reserva ≤ r.fecha_devolucion →
        reserva.fecha_reserva ≤ reserva.fecha_devolucion →
        (reserva.fecha_reserva = r.fecha_devolucion ∨ reserva.fecha_devolucion = r.fecha_reserva) →
        create_reserva db reserva usuario_id = Except.error availabilityConflictMsg)
    ∧ (∀ (db : DB) (v : Vehiculo) (r : Reserva) (ini fin : Int),
        v ∈ db.vehiculos → r ∈ db.reservas → r.vehiculo_id = v.id →
        r.fecha_reserva ≤ r.fecha_devolucion → ini ≤ fin →
        (ini = r.fecha_devolucion ∨ fin = r.fecha_reserva) →
        v ∉ get_vehiculos_disponibles db ini fin) := by
  refine ⟨fun r b1 b2 => rfl, ?_, ?_, ?_⟩
  · intro t0 t1 t2 h1 h2; simp [overlaps_spec]; omega
  · intro db reserva usuario_id r hr hveq hwf1 hwf2 htouch
    unfold create_reserva
    have hq : vehiculo_disponible_query db reserva = none := by
      unfold vehiculo_disponible_query
      rw [List.find?_eq_none]
      intro v hv
      simp only [Bool.and_eq_true, Bool.not_eq_true', beq_iff_eq] at *
      by_cases hid : v.id = reserva.vehiculo_id
      · simp [hid]
        exact ⟨r, hr, hveq, by simp [reservaOverlapsBool]; omega⟩
      · simp [hid]
    rw [hq]
  · intro db v r ini fin hv hr hveq hwf hle htouch
    unfold get_vehiculos_disponibles
    simp only [List.mem_filter, not_and]
    intro _
    simp only [Bool.not_eq_true', Bool.not_eq_false]
    apply List.contains_iff_exists_mem_beq.mpr
    refine ⟨r.vehiculo_id, ?_, by simp [hveq]⟩
    refine List.mem_map.mpr ⟨r, ?_, rfl⟩
    refine List.mem_filter.mpr ⟨hr, ?_⟩
    simp [reservaOverlapsBool]
    omega

/-- Witness for C2: in the §8 scenario (V1 booked `[10, 12]`), the touching
request `[12, 14]` is rejected by the commit and V1 is excluded from the
availability query for that range. -/
theorem overlap_rule_inclusive_boundaries_witness :
    overlaps_spec 10 12 12 14 = true ∧
    create_reserva dbEscenario { vehiculo_id := 1, fecha_reserva := 12, fecha_devolucion := 14 } 7 =
      Except.error availabilityConflictMsg ∧
    vehiculoV1 ∉ get_vehiculos_disponibles dbEscenario 12 14 :=
  ⟨overlap_rule_inclusive_boundaries.2.1 10 12 14 (by decide) (by decide),
   overlap_rule_inclusive_boundaries.2.2.1 dbEscenario _ 7 reservaV1 (by decide) (by decide)
     (by decide) (by decide) (Or.inl (by decide)),
   overlap_rule_inclusive_boundaries.2.2.2 dbEscenario vehiculoV1 reservaV1 12 14 (by decide)
     (by decide) (by decide) (by decide) (by decide) (Or.inl (by decide))⟩

/-- C4: for all `start <= end` the anti-join implementation of
`get_vehiculos_disponibles` ("all vehicles minus vehicles with an
overlapping reservation") is extensionally equal to the per-vehicle
definition that filters the fleet by the availability check. -/
theorem get_vehiculos_disponibles_equiv_spec (db : DB) (fecha_inicio fecha_fin : Int)
    (_h : fecha_inicio ≤ fecha_fin) :
    get_vehiculos_disponibles db fecha_inicio fecha_fin =
      listAvailableVehicles_spec db fecha_inicio fecha_fin := by
  unfold get_vehiculos_disponibles listAvailableVehicles_spec isAvailable_spec
  apply List.filter_congr
  intro v _
  congr 1
  rw [Bool.eq_iff_iff]
  simp [List.any_eq_true, List.mem_map, List.mem_filter, beq_iff_eq]
  tauto

/-- Witness for C4 at the §8 scenario store and the range `[10, 11]`. -/
theorem get_vehiculos_disponibles_equiv_spec_witness :
    (10 : Int) ≤ 11 ∧
    get_vehiculos_disponibles dbEscenario 10 11 = listAvailableVehicles_spec dbEscenario 10 11 :=
  ⟨by decide, get_vehiculos_disponibles_equiv_spec dbEscenario 10 11 (by decide)⟩

/-- A client who owns nothing in the concrete stores. -/
def otroCliente : User :=
  { id := 9, nombre := "Eve", email := "eve@example.com",
    hashed_password := "z", rol := "Cliente" }

/-- A store with vehicle V1 and no reservations at all. -/
def dbRace : DB :=
  { users := [adminRoot, clienteAna], vehiculos := [vehiculoV1],
    categorias := [], reservas := [],
    nextUserId := 8, nextVehiculoId := 2, nextCategoriaId := 1, nextReservaId := 1 }

/-- A store with no vehicles (and so no reservations). -/
def dbSinVehiculos : DB :=
  { users := [clienteAna], vehiculos := [], categorias := [], reservas := [],
    nextUserId := 8, nextVehiculoId := 1, nextCategoriaId := 1, nextReservaId := 1 }

/-- C3 counterexample: in a store with no vehicles, no recorded reservation
for vehicle 1 overlaps the candidate, yet `create_reserva` aborts with the
availability error instead of inserting — the claim's success branch needs
the target vehicle to exist. -/
theorem create_reserva_rejects_despite_no_overlap :
    dbSinVehiculos.reservas = [] ∧
    create_reserva dbSinVehiculos
        { vehiculo_id := 1, fecha_reserva := 0, fecha_devolucion := 5 } 7 =
      Except.error availabilityConflictMsg :=
  ⟨rfl, rfl⟩

/-- C3 (amended): provided the target vehicle exists in the store, a call
with some overlapping stored reservation for that vehicle aborts with the
availability `ValueError` (no mutation), and a call with no overlap inserts
exactly one new record carrying the requested vehicle, user and interval,
and returns it. -/
theorem create_reserva_conflict_or_insert (db : DB) (reserva : ReservaBase) (usuario_id : Nat)
    (hveh : ∃ v ∈ db.vehiculos, v.id = reserva.vehiculo_id) :
    ((∃ r ∈ db.reservas, r.vehiculo_id = reserva.vehiculo_id ∧
        reservaOverlapsBool r reserva.fecha_reserva reserva.fecha_devolucion = true) →
      create_reserva db reserva usuario_id = Except.error availabilityConflictMsg)
    ∧ ((∀ r ∈ db.reservas, r.vehiculo_id = reserva.vehiculo_id →
        reservaOverlapsBool r reserva.fecha_reserva reserva.fecha_devolucion = false) →
      create_reserva db reserva usuario_id =
        Except.ok (insert_reserva db reserva usuario_id)) := by
  constructor
  · rintro ⟨r, hr, hrv, hov⟩
    unfold create_reserva
    have hq : vehiculo_disponible_query db reserva = none := by
      unfold vehiculo_disponible_query
      rw [List.find?_eq_none]
      intro v hv
      simp only [Bool.and_eq_true, Bool.not_eq_true', beq_iff_eq] at *
      by_cases hid : v.id = reserva.vehiculo_id
      · simp [hid]
        exact ⟨r, hr, hrv, hov⟩
      · simp [hid]
    rw [hq]
  · intro hfree
    obtain ⟨v, hv, hvid⟩ := hveh
    unfold create_reserva
    have hsome : (vehiculo_disponible_query db reserva).isSome = true := by
      unfold vehiculo_disponible_query
      apply List.find?_isSome.mpr
      refine ⟨v, hv, ?_⟩
      simp only [Bool.and_eq_true, Bool.not_eq_true', beq_iff_eq]
      refine ⟨hvid, ?_⟩
      rw [List.any_eq_false]
      intro r hr
      simp only [Bool.not_eq_true, Bool.and_eq_false_iff, beq_eq_false_iff_ne, ne_eq]
      by_cases hrv : r.vehiculo_id = v.id
      · exact Or.inr (hfree r hr (hrv.trans hvid))
      · exact Or.inl hrv
    cases hq : vehiculo_disponible_query db reserva with
    | none => rw [hq] at hsome; simp at hsome
    | some w => rfl

/-- Witness for C3 (amended): in the §8 scenario the free request `[13, 14]`
commits on V1. -/
theorem create_reserva_conflict_or_insert_witness :
    create_reserva dbEscenario { vehiculo_id := 1, fecha_reserva := 13, fecha_devolucion := 14 } 7 =
      Except.ok
        (insert_reserva dbEscenario
          { vehiculo_id := 1, fecha_reserva := 13, fecha_devolucion := 14 } 7) :=
  (create_reserva_conflict_or_insert dbEscenario _ 7
    ⟨vehiculoV1, by decide, by decide⟩).2 (by decide)

/-- C5 fails on the code: `create_reserva` runs its availability check and
its insert as two separate store operations with no transactional guard or
lock, so the interleaving check-1, check-2, insert-1, insert-2 of two
overlapping requests for the same vehicle passes both checks and commits
both records, violating the no-double-booking guarantee. -/
theorem create_reserva_race_window :
    (vehiculo_disponible_query dbRace
        { vehiculo_id := 1, fecha_reserva := 0, fecha_devolucion := 10 }).isSome = true
    ∧ (vehiculo_disponible_query dbRace
        { vehiculo_id := 1, fecha_reserva := 5, fecha_devolucion := 15 }).isSome = true
    ∧ ¬ no_double_booking
        (insert_reserva
          (insert_reserva dbRace
            { vehiculo_id := 1, fecha_reserva := 0, fecha_devolucion := 10 } 7).1
          { vehiculo_id := 1, fecha_reserva := 5, fecha_devolucion := 15 } 1).1 := by
  decide

/-- C6 fails on the code: no `start <= end` validation exists anywhere, so a
request with `start > end` is not rejected — with no stored overlap it is
inserted into the store as-is. -/
theorem create_reserva_accepts_inverted_interval :
    ((5 : Int) > 3)
    ∧ create_reserva dbRace { vehiculo_id := 1, fecha_reserva := 5, fecha_devolucion := 3 } 7 =
        Except.ok
          (insert_reserva dbRace
            { vehiculo_id := 1, fecha_reserva := 5, fecha_devolucion := 3 } 7)
    ∧ (insert_reserva dbRace
        { vehiculo_id := 1, fecha_reserva := 5, fecha_devolucion := 3 } 7).1.reservas ≠
        dbRace.reservas :=
  ⟨by decide, rfl, by decide⟩

/-- C7 counterexample: usuario_id 99 references no stored user, yet the call
does not return NotFound — the reservation is inserted for the phantom user. -/
theorem create_reserva_ignores_missing_user :
    (∀ u ∈ dbRace.users, u.id ≠ 99)
    ∧ create_reserva dbRace { vehiculo_id := 1, fecha_reserva := 0, fecha_devolucion := 5 } 99 =
        Except.ok
          (insert_reserva dbRace
            { vehiculo_id := 1, fecha_reserva := 0, fecha_devolucion := 5 } 99) :=
  ⟨by decide, rfl⟩

/-- C7 (amended): a vehicleId referencing no stored vehicle is rejected with
the same availability `ValueError` used for overlap conflicts (no distinct
NotFound), with no record inserted; the userId is never validated — the
availability query is independent of the user table. -/
theorem create_reserva_entity_validation (db : DB) (reserva : ReservaBase) (usuario_id : Nat) :
    ((∀ v ∈ db.vehiculos, v.id ≠ reserva.vehiculo_id) →
      create_reserva db reserva usuario_id = Except.error availabilityConflictMsg)
    ∧ (∀ us : List User,
        vehiculo_disponible_query { db with users := us } reserva =
          vehiculo_disponible_query db reserva) := by
  constructor
  · intro hno
    unfold create_reserva
    have hq : vehiculo_disponible_query db reserva = none := by
      unfold vehiculo_disponible_query
      rw [List.find?_eq_none]
      intro v hv
      simp only [Bool.not_eq_true]
      exact Bool.and_eq_false_iff.mpr (Or.inl (beq_eq_false_iff_ne.mpr (hno v hv)))
    rw [hq]
  · intro us; rfl

/-- Witness for C7 (amended): requesting the nonexistent vehicle 99. -/
theorem create_reserva_entity_validation_witness :
    create_reserva dbRace { vehiculo_id := 99, fecha_reserva := 0, fecha_devolucion := 5 } 7 =
      Except.error availabilityConflictMsg :=
  (create_reserva_entity_validation dbRace _ 7).1 (by decide)

/-- C8 counterexample: cancelling exactly at the reservation's start instant
(`now = fecha_reserva = 10`) succeeds, because the source's guard is the
strict `datetime.now() > fecha_reserva` — the claim says that boundary
instant must be TooLate. -/
theorem delete_reserva_at_start_instant_succeeds :
    reservaV1.fecha_reserva = 10 ∧
    (delete_reserva dbEscenario 1 clienteAna 10).1 = CancelOutcome.success := by
  decide

/-- C8 (amended): for an existing reservation and an authorized requester,
`delete_reserva` returns TooLate exactly when the current time is strictly
after the reservation's start, and succeeds (hard-deleting the record) at
any instant up to and including the start. -/
theorem delete_reserva_cancellation_window (db : DB) (reserva_id : Nat) (u : User) (now : Int)
    (r : Reserva) (hq : get_reserva db reserva_id = some r)
    (hauth : r.usuario_id = u.id ∨ u.rol = "Administrador") :
    (now > r.fecha_reserva →
      delete_reserva db reserva_id u now = (CancelOutcome.tooLate, db))
    ∧ (now ≤ r.fecha_reserva →
      delete_reserva db reserva_id u now =
        (CancelOutcome.success, crud_delete_reserva db reserva_id)) := by
  have hf : ¬(r.usuario_id ≠ u.id ∧ u.rol ≠ "Administrador") := by
    rcases hauth with h | h
    · intro hc; exact hc.1 h
    · intro hc; exact hc.2 h
  constructor
  · intro ht
    unfold delete_reserva
    rw [hq]
    dsimp only
    rw [if_neg hf, if_pos ht]
  · intro ht
    unfold delete_reserva
    rw [hq]
    dsimp only
    rw [if_neg hf, if_neg (by omega : ¬ now > r.fecha_reserva)]

/-- Witness for C8 (amended): owner Ana gets TooLate at `now = 11` and a
successful hard delete at `now = 9` (the booking starts at 10). -/
theorem delete_reserva_cancellation_window_witness :
    delete_reserva dbEscenario 1 clienteAna 11 = (CancelOutcome.tooLate, dbEscenario) ∧
    delete_reserva dbEscenario 1 clienteAna 9 =
      (CancelOutcome.success, crud_delete_reserva dbEscenario 1) :=
  ⟨(delete_reserva_cancellation_window dbEscenario 1 clienteAna 11 reservaV1 (by decide)
      (Or.inl (by decide))).1 (by decide),
   (delete_reserva_cancellation_window dbEscenario 1 clienteAna 9 reservaV1 (by decide)
      (Or.inl (by decide))).2 (by decide)⟩

/-- C9: `delete_reserva` returns NotFound iff no stored reservation has the
requested id; returns Forbidden (leaving the store unchanged) when the
requester is neither the owner nor an administrator; and on Success the
record is hard-deleted — no record with that id survives in the store, in
`get_reservas_usuario`, or in `get_reservas_activas_usuario`, and no other
table is touched (no compensating state). -/
theorem delete_reserva_outcomes (db : DB) (reserva_id : Nat) (u : User) (now : Int) :
    ((delete_reserva db reserva_id u now).1 = CancelOutcome.notFound ↔
      ∀ r ∈ db.reservas, r.id ≠ reserva_id)
    ∧ (∀ r, get_reserva db reserva_id = some r →
        r.usuario_id ≠ u.id → u.rol ≠ "Administrador" →
        delete_reserva db reserva_id u now = (CancelOutcome.forbidden, db))
    ∧ ((delete_reserva db reserva_id u now).1 = CancelOutcome.success →
        ((delete_reserva db reserva_id u now).2.users = db.users
        ∧ (delete_reserva db reserva_id u now).2.vehiculos = db.vehiculos
        ∧ (delete_reserva db reserva_id u now).2.categorias = db.categorias
        ∧ (∀ r ∈ (delete_reserva db reserva_id u now).2.reservas, r.id ≠ reserva_id)
        ∧ (∀ uid r, r ∈ get_reservas_usuario (delete_reserva db reserva_id u now).2 uid →
            r.id ≠ reserva_id)
        ∧ (∀ uid ahora r,
            r ∈ get_reservas_activas_usuario (delete_reserva db reserva_id u now).2 uid ahora →
            r.id ≠ reserva_id))) := by
  have hmemdel : ∀ r ∈ (crud_delete_reserva db reserva_id).reservas, r.id ≠ reserva_id := by
    intro r hr
    unfold crud_delete_reserva at hr
    simp only [List.mem_filter, Bool.not_eq_true', beq_eq_false_iff_ne, ne_eq] at hr
    exact hr.2
  refine ⟨?_, ?_, ?_⟩
  · unfold delete_reserva
    cases hq : get_reserva db reserva_id with
    | none =>
      simp only
      constructor
      · intro _ r hr hid
        unfold get_reserva at hq
        rw [List.find?_eq_none] at hq
        have := hq r hr
        simp [hid] at this
      · intro _; trivial
    | some r =>
      dsimp only
      constructor
      · intro hout
        split_ifs at hout
      · intro hall
        exfalso
        have hrmem := List.mem_of_find?_eq_some hq
        have hrid : r.id = reserva_id := by
          have := List.find?_some hq
          simpa [beq_iff_eq] using this
        exact hall r hrmem hrid
  · intro r hq hown hrol
    unfold delete_reserva
    rw [hq]
    dsimp only
    rw [if_pos ⟨hown, hrol⟩]
  · intro hsucc
    unfold delete_reserva at *
    cases hq : get_reserva db reserva_id with
    | none => rw [hq] at hsucc; exact absurd hsucc (by simp)
    | some r =>
      rw [hq] at hsucc
      dsimp only at hsucc ⊢
      split_ifs at hsucc ⊢ with h1 h2
      refine ⟨rfl, rfl, rfl, hmemdel, ?_, ?_⟩
      · intro uid rr hrr
        unfold get_reservas_usuario at hrr
        exact hmemdel rr (List.mem_of_mem_filter hrr)
      · intro uid ahora rr hrr
        unfold get_reservas_activas_usuario at hrr
        exact hmemdel rr (List.mem_of_mem_filter hrr)

/-- Witness for C9: Ana cancels her booking at `now = 9`; the user table is
untouched and the record is gone from the store. -/
theorem delete_reserva_outcomes_witness :
    (delete_reserva dbEscenario 1 clienteAna 9).2.users = dbEscenario.users ∧
    reservaV1 ∉ (delete_reserva dbEscenario 1 clienteAna 9).2.reservas := by
  have h := (delete_reserva_outcomes dbEscenario 1 clienteAna 9).2.2 (by decide)
  exact ⟨h.1, fun hmem => (h.2.2.2.1 reservaV1 hmem) (by decide)⟩

/-- C10: the guards of `delete_reserva` fire in the fixed order existence,
authorization, temporal window: a missing id gives NotFound for every
requester; an existing reservation with an unauthorized requester gives
Forbidden for every current time (even past the start); and TooLate is
reachable only once the lookup succeeded and the requester was the owner or
an administrator. -/
theorem delete_reserva_guard_order (db : DB) (reserva_id : Nat) (u : User) (now : Int) :
    (get_reserva db reserva_id = none →
      delete_reserva db reserva_id u now = (CancelOutcome.notFound, db))
    ∧ (∀ r, get_reserva db reserva_id = some r →
        r.usuario_id ≠ u.id → u.rol ≠ "Administrador" →
        delete_reserva db reserva_id u now = (CancelOutcome.forbidden, db))
    ∧ ((delete_reserva db reserva_id u now).1 = CancelOutcome.tooLate →
        ∃ r, get_reserva db reserva_id = some r ∧
          (r.usuario_id = u.id ∨ u.rol = "Administrador") ∧ now > r.fecha_reserva) := by
  refine ⟨?_, ?_, ?_⟩
  · intro hq; unfold delete_reserva; rw [hq]
  · intro r hq hown hrol
    unfold delete_reserva
    rw [hq]
    dsimp only
    rw [if_pos ⟨hown, hrol⟩]
  · intro hout
    unfold delete_reserva at hout
    cases hq : get_reserva db reserva_id with
    | none => rw [hq] at hout; exact absurd hout (by simp)
    | some r =>
      rw [hq] at hout
      dsimp only at hout
      by_cases hf : r.usuario_id ≠ u.id ∧ u.rol ≠ "Administrador"
      · rw [if_pos hf] at hout; exact absurd hout (by simp)
      · rw [if_neg hf] at hout
        by_cases ht : now > r.fecha_reserva
        · refine ⟨r, rfl, ?_, ht⟩
          rw [not_and_or] at hf
          rcases hf with h1 | h2
          · exact Or.inl (not_not.mp h1)
          · exact Or.inr (not_not.mp h2)
        · rw [if_neg ht] at hout; exact absurd hout (by simp)

/-- Witness for C10: id 42 is NotFound whoever asks; Eve is Forbidden on
Ana's booking even at `now = 11`, after it started. -/
theorem delete_reserva_guard_order_witness :
    delete_reserva dbRace 42 clienteAna 0 = (CancelOutcome.notFound, dbRace) ∧
    delete_reserva dbEscenario 1 otroCliente 11 = (CancelOutcome.forbidden, dbEscenario) :=
  ⟨(delete_reserva_guard_order dbRace 42 clienteAna 0).1 (by decide),
   (delete_reserva_guard_order dbEscenario 1 otroCliente 11).2.1 reservaV1 (by decide)
     (by decide) (by decide)⟩
